import Mathlib

/-!
Verification of the network-monitoring system (Flask/SQLAlchemy repository).

The development shallowly embeds the pieces of the code that the claims
touch:

* `Monitoring` — `src/src/services/monitoring.py`: the comprehensive host
  check (`check_host_comprehensive`), result persistence
  (`save_check_result`) and the running statistics (`update_stats`).
  Probers (ICMP, TCP, HTTP/HTTPS, SSL) and the DNS resolver are pure
  oracles passed in as a `Probers` record; time is a natural number;
  latencies are rationals.  Python truthiness of strings and floats is
  modelled explicitly (`strOptTruthy`, `latTruthy`).
* `App` — `src/app.py`: the TTL DNS cache (`resolve_hostname`), the hybrid
  host check (`checar_um_host`) with its ICMP-then-TCP fallback scan, the
  in-memory status cache and the history rows it appends.
* `Alerts` — `src/src/services/alerts.py`: rule targeting
  (`matches_target`), condition evaluation (`should_trigger_alert`),
  alert-instance creation/update (`create_alert_instance`), resolution
  (`check_alert_resolution`) and the per-result evaluation loop
  (`evaluate_alert_rules`).  The database session is modelled as explicit
  state (a list of alert instances); `json.loads` on string arrays and
  Python `float()` are oracles in `PyOracles`; notification dispatch is
  recorded as an event list.
-/

/-- Host status enumeration (`HostStatus` in `src/src/models/host.py`);
the `statusValue` function below gives the `.value` strings. -/
inductive HostStatus where
  | online
  | offline
  | warning
  | unknown
  | maintenance
deriving DecidableEq, Repr

/-- The `.value` string of each `HostStatus` enum member. -/
def statusValue : HostStatus → String
  | .online => "Online"
  | .offline => "Offline"
  | .warning => "Warning"
  | .unknown => "Unknown"
  | .maintenance => "Maintenance"

/-- Python truthiness of an optional string column: `None` and `""` are
falsy, any non-empty string is truthy. -/
def strOptTruthy : Option String → Bool
  | none => false
  | some s => !s.isEmpty

/-- Python `x or d` for an optional string `x`: the default is taken when
`x` is `None` or empty. -/
def pyStrOr (o : Option String) (d : String) : String :=
  match o with
  | none => d
  | some s => if s.isEmpty then d else s

/-- Python truthiness of an optional float latency: `None` and `0.0` are
falsy. -/
def latTruthy : Option ℚ → Bool
  | none => false
  | some q => decide (q ≠ 0)

/-- `str.split(',')` at the character level. -/
def splitCommaAux : List Char → List (List Char)
  | [] => [[]]
  | c :: cs =>
    match splitCommaAux cs with
    | [] => [[]]
    | h :: t => if c = ',' then [] :: h :: t else (c :: h) :: t

/-- Python `s.split(',')`. -/
def splitComma (s : String) : List String :=
  (splitCommaAux s.data).map (fun l => String.mk l)

/-- Python `s.strip()`: drop whitespace from both ends. -/
def pyTrim (s : String) : String :=
  String.mk ((s.data.dropWhile Char.isWhitespace).reverse.dropWhile
    Char.isWhitespace).reverse

/-- Python `s.lower()`. -/
def pyLower (s : String) : String := String.mk (s.data.map Char.toLower)

/-- Python `int(s) if s.isdigit() else None`: parse a non-empty string of
decimal digits. -/
def pyToNat? (s : String) : Option Nat :=
  if s.data ≠ [] ∧ s.data.all Char.isDigit then
    some (s.data.foldl (fun n c => 10 * n + (c.toNat - 48)) 0)
  else none

/-- Whether the second list occurs at the head of the first. -/
def listStartsWith : List Char → List Char → Bool
  | _, [] => true
  | [], _ :: _ => false
  | c :: cs, d :: ds => c = d && listStartsWith cs ds

/-- Whether `needle` occurs (contiguously) anywhere in the list. -/
def listOccurs (needle : List Char) : List Char → Bool
  | [] => listStartsWith [] needle
  | c :: cs => listStartsWith (c :: cs) needle || listOccurs needle cs

/-- Python substring test `a in b` for strings (used by the `except`
branches of rule targeting).  The empty string is a substring of every
string. -/
def pyInStr (a b : String) : Bool :=
  listOccurs a.data b.data

namespace Monitoring

/-- The fields of the `Host` ORM row read by `check_host_comprehensive`
(`src/src/models/host.py`).  `check_types` and `tcp_ports` are the raw
comma-separated text columns. -/
structure MonHost where
  hostname : String
  fallback_ip : Option String
  check_types : Option String
  tcp_ports : Option String
  timeout : Nat
  in_maintenance : Bool
  maintenance_until : Option Nat
deriving DecidableEq, Repr

/-- Outcome of one probe method: success flag plus optional latency (ms),
mirroring the tuples returned by `ping_icmp` / `ping_http`. -/
structure MethodResult where
  success : Bool
  latency_ms : Option ℚ
  detail : Option String := none
deriving DecidableEq, Repr

/-- One entry of the `results['checks']['tcp']` list. -/
structure TcpPortResult where
  port : Nat
  success : Bool
  latency_ms : Option ℚ
deriving DecidableEq, Repr

/-- The probers and the resolver of `MonitoringService`, abstracted as
pure functions (the real ones do socket / subprocess I/O).
`resolve` mirrors `resolve_hostname`: `(ip, error)`. -/
structure Probers where
  ping_icmp : String → Nat → Bool × Option ℚ
  ping_tcp : String → Nat → Nat → Bool × Option ℚ
  ping_http : String → Nat → Bool × Option ℚ × Option String
  check_ssl : String → Nat → Nat → Bool
  resolve : String → Option String × Option String

/-- Result of one call to the uncached `MonitoringService.resolve_hostname`:
the `(ip, error)` pair together with the number of
`socket.gethostbyname` invocations the call performed. -/
structure MonResolveOut where
  ip : Option String
  error : Option String
  lookups : Nat
deriving DecidableEq, Repr

/-- `MonitoringService.resolve_hostname` (`monitoring.py`, lines
149-159): it keeps **no cache** and consults no clock — every call
invokes `socket.gethostbyname` exactly once; a raised `gaierror e`
becomes `(None, "DNS resolution failed: " ++ e)`.  (`lookup` models
`socket.gethostbyname`; `check_host_comprehensive` reaches this method
through the `resolve` oracle of `Probers`.) -/
def resolve_hostname (lookup : String → Except String String)
    (hostname : String) : MonResolveOut :=
  match lookup hostname with
  | .ok ip => ⟨some ip, none, 1⟩
  | .error e => ⟨none, some ("DNS resolution failed: " ++ e), 1⟩

/-- A record of one I/O invocation performed during a check; used to state
that short-circuited paths perform no probing. -/
inductive ProbeCall where
  | dnsLookup (hostname : String)
  | icmp (target : String)
  | tcp (target : String) (port : Nat)
  | http (url : String)
  | https (url : String)
  | ssl (target : String) (port : Nat)
deriving DecidableEq, Repr

/-- The `results` dict built by `check_host_comprehensive`, with the
nested `checks` dict flattened into one field per method (the `dns` entry
becomes `dns_success` / `dns_error` / `dns_fallback_used`). -/
structure CheckResult where
  hostname : String
  overall_status : HostStatus
  dns_success : Bool
  dns_error : Option String
  dns_fallback_used : Bool
  primary_ip : Option String
  response_time : Option ℚ
  error_message : Option String
  icmp : Option MethodResult
  tcp : Option (List TcpPortResult)
  http : Option MethodResult
  https : Option MethodResult
  ssl_ok : Option Bool
deriving DecidableEq, Repr

/-- Result of a whole check: the result dict, the I/O performed, and
whether the maintenance flag was cleared in the host store (the side
effect on the `Host` row). -/
structure CheckOutcome where
  result : CheckResult
  probeLog : List ProbeCall
  cleared_maintenance : Bool
deriving Repr

/-- `[ct.strip().lower() for ct in (host.check_types or "icmp,tcp").split(',')]`. -/
def parseCheckTypes (raw : Option String) : List String :=
  (splitComma (pyStrOr raw "icmp,tcp")).map (fun ct => pyLower (pyTrim ct))

/-- `[int(p.strip()) for p in host.tcp_ports.split(',') if p.strip().isdigit()]`. -/
def parseTcpPorts (s : String) : List Nat :=
  (splitComma s).filterMap (fun p => pyToNat? (pyTrim p))

/-- The best-latency update performed on a successful probe:
`if best_latency is None or (lat and lat < best_latency): best_latency = lat`
(note Python truthiness: a latency of `0.0` never replaces an existing
best value). -/
def bestUpdate (best lat : Option ℚ) : Option ℚ :=
  match best with
  | none => lat
  | some b =>
    match lat with
    | none => some b
    | some l => if l ≠ 0 ∧ l < b then some l else some b

/-- Mutable state of the probing section of `check_host_comprehensive`:
the per-method entries of `results['checks']`, the `any_success` and
`best_latency` locals, and the probe log. -/
structure ChecksAcc where
  icmp : Option MethodResult := none
  tcp : Option (List TcpPortResult) := none
  http : Option MethodResult := none
  https : Option MethodResult := none
  ssl_ok : Option Bool := none
  any_success : Bool := false
  best_latency : Option ℚ := none
  log : List ProbeCall := []

/-- The `# ICMP Check` block. -/
def icmp_step (P : Probers) (host : MonHost) (ct : List String) (target : String)
    (a : ChecksAcc) : ChecksAcc :=
  if ct.contains "icmp" then
    let r := P.ping_icmp target host.timeout
    { a with
      icmp := some ⟨r.1, r.2, none⟩
      any_success := a.any_success || r.1
      best_latency := if r.1 then bestUpdate a.best_latency r.2 else a.best_latency
      log := a.log ++ [ProbeCall.icmp target] }
  else a

/-- The `for port in tcp_ports` loop: every port is probed (there is no
early exit), accumulating per-port results and updating
`any_success` / `best_latency` on each success. -/
def tcp_port_loop (P : Probers) (target : String) (timeout : Nat) :
    List Nat → List TcpPortResult → Bool → Option ℚ →
    List TcpPortResult × Bool × Option ℚ
  | [], acc, any, best => (acc, any, best)
  | p :: ps, acc, any, best =>
    let r := P.ping_tcp target p timeout
    tcp_port_loop P target timeout ps (acc ++ [⟨p, r.1, r.2⟩])
      (any || r.1) (if r.1 then bestUpdate best r.2 else best)

/-- The `# TCP Port Checks` block (guarded by `'tcp' in check_types and
host.tcp_ports`). -/
def tcp_step (P : Probers) (host : MonHost) (ct : List String) (target : String)
    (a : ChecksAcc) : ChecksAcc :=
  if ct.contains "tcp" && strOptTruthy host.tcp_ports then
    let ports := parseTcpPorts (host.tcp_ports.getD "")
    let r := tcp_port_loop P target host.timeout ports [] a.any_success a.best_latency
    { a with
      tcp := some r.1
      any_success := r.2.1
      best_latency := r.2.2
      log := a.log ++ ports.map (fun p => ProbeCall.tcp target p) }
  else a

/-- The `# HTTP/HTTPS Checks` block, HTTP part. -/
def http_step (P : Probers) (host : MonHost) (ct : List String) (target : String)
    (a : ChecksAcc) : ChecksAcc :=
  if ct.contains "http" then
    let url := "http://" ++ target
    let r := P.ping_http url host.timeout
    { a with
      http := some ⟨r.1, r.2.1, r.2.2⟩
      any_success := a.any_success || r.1
      best_latency := if r.1 then bestUpdate a.best_latency r.2.1 else a.best_latency
      log := a.log ++ [ProbeCall.http url] }
  else a

/-- The HTTPS part, including the unconditional SSL-certificate check that
follows the HTTPS probe. -/
def https_step (P : Probers) (host : MonHost) (ct : List String) (target : String)
    (a : ChecksAcc) : ChecksAcc :=
  if ct.contains "https" then
    let url := "https://" ++ target
    let r := P.ping_http url host.timeout
    let sslOk := P.check_ssl target 443 host.timeout
    { a with
      https := some ⟨r.1, r.2.1, r.2.2⟩
      ssl_ok := some sslOk
      any_success := a.any_success || r.1
      best_latency := if r.1 then bestUpdate a.best_latency r.2.1 else a.best_latency
      log := a.log ++ [ProbeCall.https url, ProbeCall.ssl target 443] }
  else a

/-- The whole probing section, in source order ICMP → TCP → HTTP → HTTPS. -/
def run_checks (P : Probers) (host : MonHost) (ct : List String) (target : String) :
    ChecksAcc :=
  https_step P host ct target
    (http_step P host ct target
      (tcp_step P host ct target
        (icmp_step P host ct target {})))

/-- `results['checks']['dns']['success']`: whether DNS resolution produced
a (truthy) IP. -/
def dnsOkOf (P : Probers) (host : MonHost) : Bool :=
  strOptTruthy (P.resolve host.hostname).1

/-- `results['primary_ip']`: the resolved IP, else the fallback IP when
present, else nothing. -/
def primary_ip_of (P : Probers) (host : MonHost) : Option String :=
  if dnsOkOf P host then (P.resolve host.hostname).1
  else if strOptTruthy host.fallback_ip then host.fallback_ip
  else none

/-- The probing state after the whole ICMP / TCP / HTTP / HTTPS section,
run against the primary IP. -/
def checks_acc_of (P : Probers) (host : MonHost) : ChecksAcc :=
  run_checks P host (parseCheckTypes host.check_types)
    ((primary_ip_of P host).getD "")

/-- The body of `check_host_comprehensive` after the maintenance gate:
DNS resolution, fallback-IP policy, probing and the final merge. -/
def check_body (P : Probers) (host : MonHost) : CheckResult × List ProbeCall :=
  let dnsOk := dnsOkOf P host
  let dns_error := (P.resolve host.hostname).2
  let fallback_used := !dnsOk && strOptTruthy host.fallback_ip
  let primary_ip := primary_ip_of P host
  let log0 := [ProbeCall.dnsLookup host.hostname]
  if !strOptTruthy primary_ip then
    ({ hostname := host.hostname
       overall_status := .offline
       dns_success := dnsOk
       dns_error := dns_error
       dns_fallback_used := fallback_used
       primary_ip := primary_ip
       response_time := none
       error_message := some "No IP address available"
       icmp := none, tcp := none, http := none, https := none, ssl_ok := none },
     log0)
  else
    let acc := checks_acc_of P host
    ({ hostname := host.hostname
       overall_status := if acc.any_success then .online else .offline
       dns_success := dnsOk
       dns_error := dns_error
       dns_fallback_used := fallback_used
       primary_ip := primary_ip
       response_time := if acc.any_success then acc.best_latency else none
       error_message :=
         if acc.any_success then none
         else if !dnsOk then some "DNS resolution failed"
         else some "All checks failed"
       icmp := acc.icmp, tcp := acc.tcp, http := acc.http, https := acc.https
       ssl_ok := acc.ssl_ok },
     log0 ++ acc.log)

/-- The initial `results` dict as returned by the in-maintenance
short-circuit (only `overall_status` changed to `MAINTENANCE`). -/
def maintenanceResult (host : MonHost) : CheckResult :=
  { hostname := host.hostname
    overall_status := .maintenance
    dns_success := false
    dns_error := none
    dns_fallback_used := false
    primary_ip := none
    response_time := none
    error_message := none
    icmp := none, tcp := none, http := none, https := none, ssl_ok := none }

/-- Whether the maintenance window has passed:
`host.maintenance_until and datetime.now() > host.maintenance_until`. -/
def maintWindowPassed (now : Nat) (host : MonHost) : Bool :=
  match host.maintenance_until with
  | some t => decide (t < now)
  | none => false

/-- `MonitoringService.check_host_comprehensive`, with the wall clock
passed in as `now`. -/
def check_host_comprehensive (P : Probers) (now : Nat) (host : MonHost) :
    CheckOutcome :=
  if host.in_maintenance then
    if maintWindowPassed now host then
      let b := check_body P host
      ⟨b.1, b.2, true⟩
    else
      ⟨maintenanceResult host, [], false⟩
  else
    let b := check_body P host
    ⟨b.1, b.2, false⟩

/-- Whether a check of `host` at time `now` takes the maintenance
short-circuit (returns `Maintenance` without probing). -/
def maint_short_circuit (now : Nat) (host : MonHost) : Bool :=
  host.in_maintenance && !maintWindowPassed now host

/-- Whether some per-method entry recorded in the result reports success
(ICMP, any TCP port, HTTP or HTTPS — these are exactly the entries that
feed `any_success`; the `dns` and `ssl` entries never do). -/
def anyRecordedSuccess (r : CheckResult) : Bool :=
  (match r.icmp with | some m => m.success | none => false) ||
  (match r.tcp with | some l => l.any (fun t => t.success) | none => false) ||
  (match r.http with | some m => m.success | none => false) ||
  (match r.https with | some m => m.success | none => false)

/-- One row of the `host_history` table as written by
`save_check_result`. -/
structure MonHistoryRow where
  hostname : String
  status : HostStatus
  ip : Option String
  latency_ms : Option ℚ
  reason : Option String
deriving DecidableEq, Repr

/-- `MonitoringService.save_check_result`: `hostIp` is the `ip_address`
column of the matched `Host` row (`none` when no row matches).  Returns
the updated column value together with the history rows appended — one
row is appended on every call. -/
def save_check_result (hostIp : Option (Option String)) (r : CheckResult) :
    Option (Option String) × List MonHistoryRow :=
  let hostIp' :=
    match hostIp with
    | none => none
    | some old =>
      if strOptTruthy r.primary_ip then
        if r.primary_ip ≠ old then some r.primary_ip else some old
      else some old
  (hostIp',
   [{ hostname := r.hostname
      status := r.overall_status
      ip := r.primary_ip
      latency_ms := r.response_time
      reason := r.error_message }])

/-- The `stats` dict of `MonitoringService` (fields used by
`update_stats`; `last_scan_duration` is omitted as it is never touched
there). -/
structure MonStats where
  total_checks : Nat
  successful_checks : Nat
  failed_checks : Nat
  avg_response_time : ℚ
deriving DecidableEq, Repr

/-- `MonitoringService.update_stats`.  Returns `none` exactly when the
Python code would raise `ZeroDivisionError` (a `response_time` with zero
counted successful checks). -/
def update_stats (s : MonStats) (successful : Bool) (response_time : Option ℚ) :
    Option MonStats :=
  let s1 :=
    if successful then
      { s with total_checks := s.total_checks + 1
               successful_checks := s.successful_checks + 1 }
    else
      { s with total_checks := s.total_checks + 1
               failed_checks := s.failed_checks + 1 }
  match response_time with
  | none => some s1
  | some rt =>
    let n := s1.successful_checks
    if n = 0 then none
    else some { s1 with
      avg_response_time := (s1.avg_response_time * ((n : ℚ) - 1) + rt) / (n : ℚ) }

/-- Fold `update_stats` over a sequence of `(successful, response_time)`
calls, failing as soon as one call fails. -/
def runUpdates : MonStats → List (Bool × Option ℚ) → Option MonStats
  | s, [] => some s
  | s, c :: cs =>
    match update_stats s c.1 c.2 with
    | some s1 => runUpdates s1 cs
    | none => none

/-- The initial statistics of `MonitoringService.__init__`. -/
def initStats : MonStats := ⟨0, 0, 0, 0⟩

end Monitoring

namespace App

/-- One entry of the module-level `dns_cache` of `src/app.py`:
`{ip, resolved_at, ok, error}`. -/
structure DnsEntry where
  ip : Option String
  resolved_at : Nat
  ok : Bool
  error : Option String
deriving DecidableEq, Repr

/-- The `dns_cache` dict, keyed by hostname. -/
def DnsCache : Type := String → Option DnsEntry

/-- Result of one call to `resolve_hostname`: the `(ip, error)` pair, the
cache after the call, and whether `socket.gethostbyname` was invoked. -/
structure ResolveOut where
  ip : Option String
  error : Option String
  cache : DnsCache
  lookupInvoked : Bool

/-- `resolve_hostname` of `src/app.py`: a cache entry younger than 300
seconds is returned without a lookup (successes and failures alike);
otherwise `socket.gethostbyname` runs and its outcome is cached with the
current timestamp.  `lookup` models `socket.gethostbyname`
(`.error e` is a raised `gaierror` with text `e`). -/
def resolve_hostname (lookup : String → Except String String) (cache : DnsCache)
    (hostname : String) (now : Nat) : ResolveOut :=
  let fresh : ResolveOut :=
    match lookup hostname with
    | .ok ip =>
      ⟨some ip, none,
       fun h => if h = hostname then some ⟨some ip, now, true, none⟩ else cache h,
       true⟩
    | .error e =>
      let msg := "DNS resolution failed: " ++ e
      ⟨none, some msg,
       fun h => if h = hostname then some ⟨none, now, false, some msg⟩ else cache h,
       true⟩
  match cache hostname with
  | some entry =>
    if now - entry.resolved_at < 300 then
      if entry.ok then ⟨entry.ip, none, cache, false⟩
      else ⟨none, entry.error, cache, false⟩
    else fresh
  | none => fresh

/-- One machine loaded from `machines.csv`: the hostname plus the optional
IP hint used as fallback. -/
structure AppHostIn where
  name : String
  ip : Option String
deriving DecidableEq, Repr

/-- One value of the module-level `status_cache`, keyed by hostname
(the `data` dict built by `checar_um_host`; `last_checked` is omitted —
no claim touches it). -/
structure StatusEntry where
  name : String
  ip : Option String
  status : String
  latency_ms : Option ℚ
  reason : Option String
  method : Option String
  ip_changed : Bool
deriving DecidableEq, Repr

/-- One row of the `history` table of `src/app.py`. -/
structure AppHistoryRow where
  name : String
  ip : Option String
  status : String
  latency_ms : Option ℚ
deriving DecidableEq, Repr

/-- A probe performed by `checar_um_host` (ICMP ping or TCP connect). -/
inductive AppProbe where
  | icmp (target : String)
  | tcp (target : String) (port : Nat)
deriving DecidableEq, Repr

/-- The target a probe was aimed at. -/
def AppProbe.target : AppProbe → String
  | .icmp t => t
  | .tcp t _ => t

/-- The probers of `src/app.py` as pure oracles: `ping_icmp_target`
(retries internal), `tcp_ping`, and `socket.gethostbyname`. -/
structure AppProbers where
  ping_icmp_target : String → Bool × Option ℚ
  tcp_ping : String → Nat → Bool
  lookup : String → Except String String

/-- `PORTAS_TCP_TESTE = [3389, 445, 80]`. -/
def PORTAS_TCP_TESTE : List Nat := [3389, 445, 80]

/-- The `for port in PORTAS_TCP_TESTE` fallback loop: returns whether some
port connected together with the list of ports actually attempted — the
loop `break`s at the first success. -/
def tcp_fallback_scan (tcp : String → Nat → Bool) (ip : String) :
    List Nat → Bool × List Nat
  | [] => (false, [])
  | p :: ps =>
    if tcp ip p then (true, [p])
    else
      let r := tcp_fallback_scan tcp ip ps
      (r.1, p :: r.2)

/-- The ICMP-then-TCP probing shared by the resolved and fallback branches
of `checar_um_host`: ICMP against `icmpTarget` first; on failure, the TCP
fallback scan against `tcpTarget` (a TCP success leaves `latency = None`).
Returns `(online, latency, probes performed)`. -/
def probe_block (P : AppProbers) (icmpTarget tcpTarget : String) :
    Bool × Option ℚ × List AppProbe :=
  let pi := P.ping_icmp_target icmpTarget
  if pi.1 then (true, pi.2, [AppProbe.icmp icmpTarget])
  else
    let scan := tcp_fallback_scan P.tcp_ping tcpTarget PORTAS_TCP_TESTE
    (scan.1, if scan.1 then none else pi.2,
     AppProbe.icmp icmpTarget :: scan.2.map (fun p => AppProbe.tcp tcpTarget p))

/-- Everything `checar_um_host` produces: the `data` dict (also written
into the status cache), the updated caches, the history rows appended (in
write order) and the probes performed. -/
structure CheckOut where
  data : Option StatusEntry
  statusCache : String → Option StatusEntry
  dnsCache : DnsCache
  history : List AppHistoryRow
  probes : List AppProbe

/-- `final_ip = resolved_ip if resolved_ip else target_ip`. -/
def finalIp (resolved_ip target_ip : Option String) : Option String :=
  if strOptTruthy resolved_ip then resolved_ip else target_ip

/-- Render an optional string the way Python f-strings render it
(`None` for a missing value). -/
def pyShow (o : Option String) : String :=
  match o with
  | none => "None"
  | some s => s

/-- The cache/history tail of `checar_um_host`, from
`existing = status_cache.get(hostname, {})` on: builds `data`, appends an
`IP_CHANGED` history row when both the previously recorded IP and the new
final IP are present and differ, overwrites the status-cache entry, and
appends a status history row when a previously stored (truthy) status
differs from the new one. -/
def finish_check (statusCache : String → Option StatusEntry) (dnsCache : DnsCache)
    (hostname : String) (resolved_ip : Option String) (online : Bool)
    (latency : Option ℚ) (reason : Option String) (target_ip : Option String)
    (method : Option String) (probes : List AppProbe) : CheckOut :=
  let existing := statusCache hostname
  let old_status : Option String := Option.map (fun e => e.status) existing
  let new_status := if online then "Online" else "Offline"
  let fip := finalIp resolved_ip target_ip
  let old_ip : Option String := Option.bind existing (fun e => e.ip)
  let ipChanged :=
    existing.isSome && strOptTruthy old_ip && strOptTruthy fip &&
      decide (old_ip ≠ fip)
  let data : StatusEntry :=
    { name := hostname, ip := fip, status := new_status, latency_ms := latency
      reason := reason, method := method, ip_changed := ipChanged }
  let ipRows : List AppHistoryRow :=
    if ipChanged then
      [{ name := hostname, ip := fip
         status := "IP_CHANGED: " ++ pyShow old_ip ++ " -> " ++ pyShow fip ++
           " via " ++ pyShow method
         latency_ms := none }]
    else []
  let statusRows : List AppHistoryRow :=
    if strOptTruthy old_status && decide (old_status ≠ some new_status) then
      [{ name := hostname, ip := some (pyStrOr fip "unknown")
         status := new_status, latency_ms := latency }]
    else []
  { data := some data
    statusCache := fun h => if h = hostname then some data else statusCache h
    dnsCache := dnsCache
    history := ipRows ++ statusRows
    probes := probes }

/-- `checar_um_host` of `src/app.py`: resolve the hostname through the TTL
cache; on success probe ICMP (hostname) then TCP (resolved IP); on DNS
failure fall back to the CSV IP hint (`reason = DNS_FAIL_FALLBACK`) or
give up with `reason = DNS_FAIL_NO_BACKUP` and no probing; then update the
status cache and append history rows. -/
def checar_um_host (P : AppProbers) (statusCache : String → Option StatusEntry)
    (dnsCache : DnsCache) (now : Nat) (host : AppHostIn) : CheckOut :=
  let hostname := host.name
  let ip_fallback := host.ip
  if hostname.isEmpty then
    ⟨none, statusCache, dnsCache, [], []⟩
  else
    let r := resolve_hostname P.lookup dnsCache hostname now
    if strOptTruthy r.ip then
      let b := probe_block P hostname (r.ip.getD "")
      finish_check statusCache r.cache hostname r.ip b.1 b.2.1 none r.ip
        (some "HOSTNAME") b.2.2
    else if strOptTruthy ip_fallback then
      let fb := ip_fallback.getD ""
      let b := probe_block P fb fb
      finish_check statusCache r.cache hostname r.ip b.1 b.2.1
        (some "DNS_FAIL_FALLBACK") (some fb) (some "IP_FALLBACK") b.2.2
    else
      finish_check statusCache r.cache hostname r.ip false none
        (some "DNS_FAIL_NO_BACKUP") none none []

/-- The new overall status recorded by a check (empty when the early
`return None` path was taken). -/
def newStatusOf (o : CheckOut) : String :=
  match o.data with
  | some d => d.status
  | none => ""

/-- The `reason` field recorded by a check. -/
def reasonOf (o : CheckOut) : Option String :=
  Option.bind o.data (fun d => d.reason)

/-- History rows recording a status transition (as opposed to the
`IP_CHANGED: ...` annotation rows). -/
def isTransitionRow (r : AppHistoryRow) : Bool :=
  r.status == "Online" || r.status == "Offline"

end App

namespace Alerts

/-- Alert instance status (`AlertStatus` in the alert models module). -/
inductive AlertStatus where
  | active
  | acknowledged
  | resolved
  | silenced
deriving DecidableEq, Repr

/-- The columns of `AlertRule` read by the evaluator.  The targeting
columns are raw JSON text (`Text` columns), decoded at evaluation time. -/
structure AlertRule where
  id : Nat
  enabled : Bool
  condition_type : String
  condition_operator : String
  condition_value : String
  target_hosts : Option String
  target_tags : Option String
  target_groups : Option String
deriving DecidableEq, Repr

/-- The columns of `AlertInstance` the evaluator reads or writes. -/
structure AlertInstance where
  rule_id : Nat
  hostname : String
  status : AlertStatus
  trigger_value : String
  notification_count : Nat
  triggered_at : Nat
  resolved_at : Option Nat
deriving DecidableEq, Repr

/-- The columns of a `Host` row read by `_matches_target`. -/
structure AlertHost where
  tags : Option String
  group_name : Option String
deriving DecidableEq, Repr

/-- Library behaviour the service calls out to: `json.loads` restricted to
arrays of strings (`none` models a raised exception or a non-list value)
and Python `float()` (`none` models a raised `ValueError`). -/
structure PyOracles where
  jsonStrList : String → Option (List String)
  pyFloat : String → Option ℚ

/-- A notification dispatch performed by the service: one event per
`_send_alert_notifications` / `_send_resolution_notification` call. -/
inductive NotifKind where
  | triggered
  | resolved
deriving DecidableEq, Repr

/-- A dispatched notification event. -/
structure Notif where
  kind : NotifKind
  rule_id : Nat
  hostname : String
deriving DecidableEq, Repr

/-- `_matches_target`: a missing `Host` row never matches; otherwise the
explicit host list, tag overlap and group membership are tried in turn
(each with a substring fallback when `json.loads` raises), and a rule with
none of the three targeting columns set matches unconditionally. -/
def matches_target (O : PyOracles) (hosts : String → Option AlertHost)
    (rule : AlertRule) (hostname : String) : Bool :=
  match hosts hostname with
  | none => false
  | some host =>
    let byHosts :=
      strOptTruthy rule.target_hosts &&
        (let th := rule.target_hosts.getD ""
         match O.jsonStrList th with
         | some l => l.contains "*" || l.contains hostname
         | none => th == "*" || pyInStr hostname th)
    let byTags :=
      strOptTruthy rule.target_tags && strOptTruthy host.tags &&
        (match O.jsonStrList (rule.target_tags.getD ""),
               O.jsonStrList (host.tags.getD "") with
         | some ruleTags, some hostTags => ruleTags.any (fun t => hostTags.contains t)
         | _, _ => false)
    let byGroups :=
      strOptTruthy rule.target_groups && strOptTruthy host.group_name &&
        (let tg := rule.target_groups.getD ""
         let gn := host.group_name.getD ""
         match O.jsonStrList tg with
         | some l => l.contains gn
         | none => pyInStr gn tg)
    let noTargeting :=
      !(strOptTruthy rule.target_hosts || strOptTruthy rule.target_tags ||
        strOptTruthy rule.target_groups)
    byHosts || byTags || byGroups || noTargeting

/-- `_should_trigger_alert`: targeting first, then the condition —
`status equals / not_equals` a literal, or `latency greater_than /
less_than` a numeric threshold (only when a latency is present; a
non-numeric threshold yields `False` via the `ValueError` handler). -/
def should_trigger_alert (O : PyOracles) (hosts : String → Option AlertHost)
    (rule : AlertRule) (hostname : String) (status : HostStatus)
    (latency_ms : Option ℚ) : Bool :=
  if !matches_target O hosts rule hostname then false
  else if rule.condition_type == "status" then
    if rule.condition_operator == "equals" then
      statusValue status == rule.condition_value
    else if rule.condition_operator == "not_equals" then
      statusValue status != rule.condition_value
    else false
  else if rule.condition_type == "latency" && latency_ms.isSome then
    match O.pyFloat rule.condition_value with
    | some threshold =>
      if rule.condition_operator == "greater_than" then
        decide (threshold < latency_ms.getD 0)
      else if rule.condition_operator == "less_than" then
        decide (latency_ms.getD 0 < threshold)
      else false
    | none => false
  else false

/-- Whether an instance is the `Active` instance of `(rule, hostname)` —
the filter of both `_create_alert_instance` and
`_check_alert_resolution`. -/
def isActiveFor (rid : Nat) (hostname : String) (a : AlertInstance) : Bool :=
  decide (a.rule_id = rid ∧ a.hostname = hostname ∧ a.status = AlertStatus.active)

/-- Number of `Active` instances stored for `(rid, hostname)`. -/
def countActiveFor (db : List AlertInstance) (rid : Nat) (hostname : String) : Nat :=
  (db.filter (isActiveFor rid hostname)).length

/-- `str(latency_ms) if latency_ms else status.value` (Python truthiness:
a latency of `0.0` falls back to the status string). -/
def triggerValue (latency_ms : Option ℚ) (status : HostStatus) : String :=
  if latTruthy latency_ms then
    toString (latency_ms.getD 0).num ++ "/" ++ toString (latency_ms.getD 0).den
  else statusValue status

/-- Update the first list element satisfying `p` (the ORM mutates the
single row returned by `.first()`). -/
def updateFirst (p : α → Bool) (f : α → α) : List α → List α
  | [] => []
  | x :: xs => if p x then f x :: xs else x :: updateFirst p f xs

/-- `_create_alert_instance`, session-aware.  The alert table is a pair
`(committed, session)`: `committed` is the durable database state and
`session` the working state of the open ORM session (the query reads the
session state; its predicate only touches `rule_id` / `hostname` /
`status`, columns no pending uncommitted mutation ever changes, so this
coincides with the flushed view under `autoflush=False`).  When an
`Active` instance for `(rule, hostname)` already exists, its trigger
value is updated and `notification_count` incremented **in the session
only** — this branch has no `db.commit()`, so `committed` is left
untouched.  Otherwise a fresh `Active` instance with
`notification_count = 1` is appended and `db.commit()` makes the session
state durable, then one "triggered" notification is dispatched. -/
def create_alert_instance (committed session : List AlertInstance)
    (rule : AlertRule) (hostname : String) (status : HostStatus)
    (latency_ms : Option ℚ) (now : Nat) :
    (List AlertInstance × List AlertInstance) × List Notif :=
  match session.find? (isActiveFor rule.id hostname) with
  | some _ =>
    ((committed,
      updateFirst (isActiveFor rule.id hostname)
        (fun a => { a with trigger_value := triggerValue latency_ms status
                           notification_count := a.notification_count + 1 })
        session),
     [])
  | none =>
    ((session ++ [{ rule_id := rule.id, hostname := hostname
                    status := AlertStatus.active
                    trigger_value := triggerValue latency_ms status
                    notification_count := 1, triggered_at := now
                    resolved_at := none }],
      session ++ [{ rule_id := rule.id, hostname := hostname
                    status := AlertStatus.active
                    trigger_value := triggerValue latency_ms status
                    notification_count := 1, triggered_at := now
                    resolved_at := none }]),
     [⟨NotifKind.triggered, rule.id, hostname⟩])

/-- `_check_alert_resolution`, session-aware: every `Active` instance of
`(rule, hostname)` whose condition no longer holds (re-evaluated through
`_should_trigger_alert` with `latency_ms = None`) becomes `Resolved`,
gets `resolved_at` stamped, and produces one "resolved" notification;
the unconditional `db.commit()` at the end of the method makes the
whole session state durable. -/
def check_alert_resolution (O : PyOracles) (hosts : String → Option AlertHost)
    (committed session : List AlertInstance) (rule : AlertRule)
    (hostname : String) (status : HostStatus) (now : Nat) :
    (List AlertInstance × List AlertInstance) × List Notif :=
  let resolveIt := fun a =>
    isActiveFor rule.id hostname a &&
      !should_trigger_alert O hosts rule hostname status none
  ((session.map (fun a =>
      if resolveIt a then
        { a with status := AlertStatus.resolved, resolved_at := some now }
      else a),
    session.map (fun a =>
      if resolveIt a then
        { a with status := AlertStatus.resolved, resolved_at := some now }
      else a)),
   (session.filter resolveIt).map
     (fun a => ⟨NotifKind.resolved, rule.id, a.hostname⟩))

/-- The `for rule in rules` loop of `evaluate_alert_rules`, threading the
`(committed, session)` pair. -/
def eval_rules_loop (O : PyOracles) (hosts : String → Option AlertHost)
    (hostname : String) (status : HostStatus) (latency_ms : Option ℚ)
    (now : Nat) : List AlertRule →
    List AlertInstance × List AlertInstance →
    (List AlertInstance × List AlertInstance) × List Notif
  | [], st => (st, [])
  | rule :: rs, st =>
    let step :=
      if should_trigger_alert O hosts rule hostname status latency_ms then
        create_alert_instance st.1 st.2 rule hostname status latency_ms now
      else
        check_alert_resolution O hosts st.1 st.2 rule hostname status now
    let rest := eval_rules_loop O hosts hostname status latency_ms now rs
      step.1
    (rest.1, step.2 ++ rest.2)

/-- `AlertService.evaluate_alert_rules`: evaluate every enabled rule
against one completed check result inside one `with SessionLocal() as
db:` block.  `SessionLocal` is a `sessionmaker(autocommit=False,
autoflush=False)` (`src/src/models/base.py`), so when the block exits
without a commit the session close rolls back whatever the per-rule
helpers left uncommitted: the function returns the **committed** state,
discarding the session working state. -/
def evaluate_alert_rules (O : PyOracles) (hosts : String → Option AlertHost)
    (rules : List AlertRule) (db : List AlertInstance) (hostname : String)
    (status : HostStatus) (latency_ms : Option ℚ) (now : Nat) :
    List AlertInstance × List Notif :=
  let r := eval_rules_loop O hosts hostname status latency_ms now
    (rules.filter (fun r => r.enabled)) (db, db)
  (r.1.1, r.2)

end Alerts

open Monitoring App Alerts

/-- Per-port results produced by the TCP loop: every configured port is
probed, in order. -/
lemma tcp_port_loop_fst (P : Probers) (target : String) (timeout : Nat)
    (ports : List Nat) (acc : List TcpPortResult) (any : Bool) (best : Option ℚ) :
    (tcp_port_loop P target timeout ports acc any best).1 =
      acc ++ ports.map (fun p =>
        ⟨p, (P.ping_tcp target p timeout).1, (P.ping_tcp target p timeout).2⟩) := by
  induction ports generalizing acc any best with
  | nil => simp [tcp_port_loop]
  | cons p ps ih => simp [tcp_port_loop, ih]

/-- The `any_success` flag after the TCP loop: the incoming flag or-ed
with per-port success. -/
lemma tcp_port_loop_any (P : Probers) (target : String) (timeout : Nat)
    (ports : List Nat) (acc : List TcpPortResult) (any : Bool) (best : Option ℚ) :
    (tcp_port_loop P target timeout ports acc any best).2.1 =
      (any || ports.any (fun p => (P.ping_tcp target p timeout).1)) := by
  induction ports generalizing acc any best with
  | nil => simp [tcp_port_loop]
  | cons p ps ih => simp [tcp_port_loop, ih, Bool.or_assoc]

/-- `any_success` of the probing state, in the same shape as
`anyRecordedSuccess`. -/
def accAnySuccess (a : ChecksAcc) : Bool :=
  (match a.icmp with | some m => m.success | none => false) ||
  (match a.tcp with | some l => l.any (fun t => t.success) | none => false) ||
  (match a.http with | some m => m.success | none => false) ||
  (match a.https with | some m => m.success | none => false)

/-- Success over the per-port result list is success over the port list. -/
lemma tcp_results_any (s : Nat → Bool) (l : Nat → Option ℚ) (ports : List Nat) :
    (ports.map (fun p => (⟨p, s p, l p⟩ : TcpPortResult))).any
        (fun t => t.success) = ports.any s := by
  induction ports with
  | nil => rfl
  | cons p ps ih => simp [ih]

/-- `icmp_step` leaves the later method entries untouched, and preserves
the `any_success = accAnySuccess` invariant when its own entry was still
empty. -/
lemma icmp_step_spec (P : Probers) (host : MonHost) (ct : List String)
    (target : String) (a : ChecksAcc) :
    (icmp_step P host ct target a).tcp = a.tcp ∧
    (icmp_step P host ct target a).http = a.http ∧
    (icmp_step P host ct target a).https = a.https ∧
    (a.icmp = none → a.any_success = accAnySuccess a →
      (icmp_step P host ct target a).any_success =
        accAnySuccess (icmp_step P host ct target a)) := by
  unfold icmp_step
  split
  · refine ⟨rfl, rfl, rfl, fun hf ha => ?_⟩
    simp only [accAnySuccess, hf] at ha
    simp only [accAnySuccess, ha]
    simp [Bool.or_comm, Bool.or_left_comm, Bool.or_assoc]
  · exact ⟨rfl, rfl, rfl, fun _ ha => ha⟩

/-- `tcp_step` leaves the HTTP / HTTPS entries untouched and preserves the
invariant. -/
lemma tcp_step_spec (P : Probers) (host : MonHost) (ct : List String)
    (target : String) (a : ChecksAcc) :
    (tcp_step P host ct target a).http = a.http ∧
    (tcp_step P host ct target a).https = a.https ∧
    (a.tcp = none → a.any_success = accAnySuccess a →
      (tcp_step P host ct target a).any_success =
        accAnySuccess (tcp_step P host ct target a)) := by
  unfold tcp_step
  split
  · refine ⟨rfl, rfl, fun hf ha => ?_⟩
    simp only [accAnySuccess, hf] at ha
    simp only [accAnySuccess, tcp_port_loop_fst, tcp_port_loop_any, ha,
      List.nil_append, tcp_results_any]
    simp [Bool.or_comm, Bool.or_left_comm, Bool.or_assoc]
  · exact ⟨rfl, rfl, fun _ ha => ha⟩

/-- `http_step` leaves the HTTPS entry untouched and preserves the
invariant. -/
lemma http_step_spec (P : Probers) (host : MonHost) (ct : List String)
    (target : String) (a : ChecksAcc) :
    (http_step P host ct target a).https = a.https ∧
    (a.http = none → a.any_success = accAnySuccess a →
      (http_step P host ct target a).any_success =
        accAnySuccess (http_step P host ct target a)) := by
  unfold http_step
  split
  · refine ⟨rfl, fun hf ha => ?_⟩
    simp only [accAnySuccess, hf] at ha
    simp only [accAnySuccess, ha]
    simp [Bool.or_comm, Bool.or_left_comm, Bool.or_assoc]
  · exact ⟨rfl, fun _ ha => ha⟩

/-- `https_step` preserves the invariant. -/
lemma https_step_spec (P : Probers) (host : MonHost) (ct : List String)
    (target : String) (a : ChecksAcc) :
    a.https = none → a.any_success = accAnySuccess a →
    (https_step P host ct target a).any_success =
      accAnySuccess (https_step P host ct target a) := by
  unfold https_step
  split
  · intro hf ha
    simp only [accAnySuccess, hf] at ha
    simp only [accAnySuccess, ha]
    simp [Bool.or_comm, Bool.or_left_comm, Bool.or_assoc]
  · exact fun _ ha => ha

/-- After the probing section, `any_success` holds exactly when one of the
recorded ICMP / TCP / HTTP / HTTPS entries reports success. -/
lemma run_checks_any (P : Probers) (host : MonHost) (ct : List String)
    (target : String) :
    (run_checks P host ct target).any_success =
      accAnySuccess (run_checks P host ct target) := by
  have s1 := icmp_step_spec P host ct target {}
  have s2 := tcp_step_spec P host ct target (icmp_step P host ct target {})
  have s3 := http_step_spec P host ct target
    (tcp_step P host ct target (icmp_step P host ct target {}))
  have s4 := https_step_spec P host ct target
    (http_step P host ct target
      (tcp_step P host ct target (icmp_step P host ct target {})))
  have h1 : (icmp_step P host ct target {}).any_success =
      accAnySuccess (icmp_step P host ct target {}) :=
    s1.2.2.2 rfl rfl
  have h2 := s2.2.2 (s1.1.trans rfl) h1
  have h3 := s3.2 (s2.1.trans (s1.2.1.trans rfl)) h2
  have h4 := s4 (s3.1.trans (s2.2.1.trans (s1.2.2.1.trans rfl))) h3
  exact h4

/-- The merge step of `check_body`: `Online` iff some recorded probing
method succeeded, else `Offline`. -/
lemma check_body_merge (P : Probers) (host : MonHost) :
    ((check_body P host).1.overall_status = HostStatus.online ↔
      anyRecordedSuccess (check_body P host).1 = true) ∧
    ((check_body P host).1.overall_status = HostStatus.online ∨
      (check_body P host).1.overall_status = HostStatus.offline) := by
  have ha := run_checks_any P host (parseCheckTypes host.check_types)
    ((primary_ip_of P host).getD "")
  have ha2 : (checks_acc_of P host).any_success =
      accAnySuccess (checks_acc_of P host) := ha
  simp only [check_body]
  split
  · simp [anyRecordedSuccess]
  · cases hacc : (checks_acc_of P host).any_success <;>
      · rw [hacc] at ha2
        simp [accAnySuccess] at ha2
        simp [hacc, anyRecordedSuccess]
        simp_all

/-- Claim C1 (amended): outside the maintenance short-circuit, the merged
result is `Online` iff at least one of the recorded ICMP / TCP / HTTP /
HTTPS probe entries reported success, and otherwise it is `Offline`.  A
successful DNS resolution is recorded in the result but never counts
towards `Online` (see `dns_not_counted_counterexample`). -/
theorem online_iff_probing_success (P : Probers) (now : Nat) (host : MonHost)
    (h : maint_short_circuit now host = false) :
    ((check_host_comprehensive P now host).result.overall_status =
        HostStatus.online ↔
      anyRecordedSuccess (check_host_comprehensive P now host).result = true) ∧
    ((check_host_comprehensive P now host).result.overall_status =
        HostStatus.online ∨
      (check_host_comprehensive P now host).result.overall_status =
        HostStatus.offline) := by
  have hb := check_body_merge P host
  unfold maint_short_circuit at h
  unfold check_host_comprehensive
  cases hm : host.in_maintenance with
  | false => simpa using hb
  | true =>
    rw [hm] at h
    simp only [Bool.true_and, Bool.not_eq_false'] at h
    simpa [h] using hb

/-- A prober stub whose DNS resolution succeeds while every reachability
probe fails except TCP (which is never consulted for a DNS-only host). -/
def P1 : Probers :=
  { ping_icmp := fun _ _ => (false, none)
    ping_tcp := fun _ _ _ => (true, some 1)
    ping_http := fun _ _ => (false, none, none)
    check_ssl := fun _ _ _ => false
    resolve := fun _ => (some "10.0.0.5", none) }

/-- A host whose only enabled check method is `dns`. -/
def hostDnsOnly : MonHost :=
  { hostname := "srv1", fallback_ip := none, check_types := some "dns"
    tcp_ports := none, timeout := 5, in_maintenance := false
    maintenance_until := none }

/-- Counterexample to claim C1 as frozen: for a host with enabled method
set `{dns}`, DNS resolution (the enabled method's probe) succeeds, yet the
merged result is `Offline` — `any_success` is only ever set by the ICMP /
TCP / HTTP / HTTPS blocks, never by the recorded `dns` success. -/
theorem dns_not_counted_counterexample :
    (check_host_comprehensive P1 0 hostDnsOnly).result.overall_status =
        HostStatus.offline ∧
    (check_host_comprehensive P1 0 hostDnsOnly).result.dns_success = true ∧
    (parseCheckTypes hostDnsOnly.check_types).contains "dns" = true := by
  refine ⟨?_, ?_, ?_⟩ <;> decide

/-- A plain host outside any maintenance window. -/
def hostPlain : MonHost :=
  { hostname := "srv2", fallback_ip := none, check_types := none
    tcp_ports := some "80", timeout := 5, in_maintenance := false
    maintenance_until := none }

/-- Claim C4: while the maintenance window is open (`now` not past
`maintenanceUntil`), the check performs no I/O and returns the
`Maintenance` short-circuit result without clearing the flag; once the
window has passed, the flag is cleared in the host store and the check
proceeds exactly as it would for the same host outside maintenance. -/
theorem maintenance_window_short_circuit (P : Probers) (now : Nat)
    (host : MonHost) (t : Nat) (hm : host.in_maintenance = true)
    (hu : host.maintenance_until = some t) :
    (now ≤ t →
      check_host_comprehensive P now host =
        ⟨maintenanceResult host, [], false⟩) ∧
    (t < now →
      (check_host_comprehensive P now host).cleared_maintenance = true ∧
      (check_host_comprehensive P now host).result =
        (check_host_comprehensive P now
          { host with in_maintenance := false }).result ∧
      (check_host_comprehensive P now host).probeLog =
        (check_host_comprehensive P now
          { host with in_maintenance := false }).probeLog) := by
  constructor
  · intro h
    unfold check_host_comprehensive maintWindowPassed
    simp [hm, hu, Nat.not_lt.mpr h]
  · intro h
    have hb : ∀ mu, check_body P
        { host with in_maintenance := false, maintenance_until := mu } =
        check_body P host := by
      intro mu
      cases host
      rfl
    unfold check_host_comprehensive maintWindowPassed
    simp [hm, hu, h, hb]

/-- A host inside a maintenance window ending at time `10`. -/
def hostMaint : MonHost :=
  { hostname := "m1", fallback_ip := none, check_types := none
    tcp_ports := none, timeout := 5, in_maintenance := true
    maintenance_until := some 10 }

/-- Witness for `maintenance_window_short_circuit` at a concrete input. -/
theorem maintenance_window_short_circuit_witness :
    hostMaint.in_maintenance = true ∧ hostMaint.maintenance_until = some 10 ∧
    ((5 ≤ 10 →
      check_host_comprehensive P1 5 hostMaint =
        ⟨maintenanceResult hostMaint, [], false⟩) ∧
    (10 < 5 →
      (check_host_comprehensive P1 5 hostMaint).cleared_maintenance = true ∧
      (check_host_comprehensive P1 5 hostMaint).result =
        (check_host_comprehensive P1 5
          { hostMaint with in_maintenance := false }).result ∧
      (check_host_comprehensive P1 5 hostMaint).probeLog =
        (check_host_comprehensive P1 5
          { hostMaint with in_maintenance := false }).probeLog)) :=
  ⟨rfl, rfl, maintenance_window_short_circuit P1 5 hostMaint 10 rfl rfl⟩

/-- Claim C5: under a fresh cache entry, the first resolution invokes the
underlying lookup; a second resolution of the same hostname within the
300-second TTL does not invoke it again and returns the identical cached
outcome (successes and failures alike); once the TTL has elapsed a new
lookup is performed. -/
theorem resolver_cache_ttl (lookup : String → Except String String)
    (cache : DnsCache) (hostname : String) (t1 t2 : Nat)
    (h0 : cache hostname = none) (h12 : t1 ≤ t2) :
    (resolve_hostname lookup cache hostname t1).lookupInvoked = true ∧
    (t2 - t1 < 300 →
      (resolve_hostname lookup (resolve_hostname lookup cache hostname t1).cache
          hostname t2).lookupInvoked = false ∧
      (resolve_hostname lookup (resolve_hostname lookup cache hostname t1).cache
          hostname t2).ip = (resolve_hostname lookup cache hostname t1).ip ∧
      (resolve_hostname lookup (resolve_hostname lookup cache hostname t1).cache
          hostname t2).error =
        (resolve_hostname lookup cache hostname t1).error) ∧
    (300 ≤ t2 - t1 →
      (resolve_hostname lookup (resolve_hostname lookup cache hostname t1).cache
          hostname t2).lookupInvoked = true) := by
  cases hl : lookup hostname with
  | ok ip =>
    refine ⟨by simp [App.resolve_hostname, h0, hl], fun h => ?_, fun h => ?_⟩
    · simp [App.resolve_hostname, h0, hl, h]
    · simp [App.resolve_hostname, h0, hl, Nat.not_lt.mpr h]
  | error e =>
    refine ⟨by simp [App.resolve_hostname, h0, hl], fun h => ?_, fun h => ?_⟩
    · simp [App.resolve_hostname, h0, hl, h]
    · simp [App.resolve_hostname, h0, hl, Nat.not_lt.mpr h]

/-- A DNS lookup oracle that always fails. -/
def lookupFail : String → Except String String :=
  fun _ => Except.error "Name or service not known"

/-- An empty DNS cache. -/
def emptyDnsCache : DnsCache := fun _ => none

/-- Witness for `resolver_cache_ttl` at a concrete input (a cached
failure re-served within the TTL). -/
theorem resolver_cache_ttl_witness :
    emptyDnsCache "db1" = none ∧ (0 : Nat) ≤ 100 ∧
    ((resolve_hostname lookupFail emptyDnsCache "db1" 0).lookupInvoked = true ∧
    (100 - 0 < 300 →
      (resolve_hostname lookupFail
          (resolve_hostname lookupFail emptyDnsCache "db1" 0).cache
          "db1" 100).lookupInvoked = false ∧
      (resolve_hostname lookupFail
          (resolve_hostname lookupFail emptyDnsCache "db1" 0).cache
          "db1" 100).ip =
        (resolve_hostname lookupFail emptyDnsCache "db1" 0).ip ∧
      (resolve_hostname lookupFail
          (resolve_hostname lookupFail emptyDnsCache "db1" 0).cache
          "db1" 100).error =
        (resolve_hostname lookupFail emptyDnsCache "db1" 0).error) ∧
    (300 ≤ 100 - 0 →
      (resolve_hostname lookupFail
          (resolve_hostname lookupFail emptyDnsCache "db1" 0).cache
          "db1" 100).lookupInvoked = true)) :=
  ⟨rfl, by decide, resolver_cache_ttl lookupFail emptyDnsCache "db1" 0 100 rfl
    (by decide)⟩

/-- Counterexample to claim C5 as frozen: the claim's cited
`monitoring.py` resolver keeps no cache — it takes no cache state and no
clock, and every call performs exactly one `socket.gethostbyname`
lookup, so two resolutions of the same hostname (at any two instants, in
particular both within the 5-minute TTL) invoke the underlying lookup
twice, where the claim requires once.  Only `app.py`'s resolver
implements the TTL cache (`resolver_cache_ttl`). -/
theorem mon_resolver_uncached_counterexample :
    (Monitoring.resolve_hostname lookupFail "db1").lookups = 1 ∧
    (Monitoring.resolve_hostname lookupFail "db1").lookups +
      (Monitoring.resolve_hostname lookupFail "db1").lookups = 2 ∧
    (Monitoring.resolve_hostname lookupFail "db1").error =
      some "DNS resolution failed: Name or service not known" :=
  ⟨rfl, rfl, rfl⟩

/-- An `IP_CHANGED` annotation string is never the literal `"Online"`. -/
lemma ipchanged_ne_online (a b c : String) :
    ¬("IP_CHANGED: " ++ a ++ " -> " ++ b ++ " via " ++ c = "Online") := by
  cases a
  cases b
  cases c
  simp [String.ext_iff]

/-- An `IP_CHANGED` annotation string is never the literal `"Offline"`. -/
lemma ipchanged_ne_offline (a b c : String) :
    ¬("IP_CHANGED: " ++ a ++ " -> " ++ b ++ " via " ++ c = "Offline") := by
  cases a
  cases b
  cases c
  simp [String.ext_iff]

/-- Claim C2 (amended, `src/app.py` side): the store-update tail of
`checar_um_host` appends exactly one status history row when a previously
stored (non-empty) status differs from the new one and none when it is
unchanged, and independently exactly one `IP_CHANGED` row when both the
previously recorded IP and the new final IP are truthy and differ. -/
theorem history_rows_on_transition (sc : String → Option StatusEntry)
    (dc : DnsCache) (hostname : String) (resolved_ip : Option String)
    (online : Bool) (latency : Option ℚ) (reason : Option String)
    (target_ip : Option String) (method : Option String)
    (probes : List AppProbe) (e : StatusEntry)
    (he : sc hostname = some e) (hs : e.status.isEmpty = false) :
    ((finish_check sc dc hostname resolved_ip online latency reason target_ip
        method probes).history.filter isTransitionRow).length =
      (if e.status = (if online then "Online" else "Offline") then 0 else 1) ∧
    ((finish_check sc dc hostname resolved_ip online latency reason target_ip
        method probes).history.filter
          (fun r => !isTransitionRow r)).length =
      (if (strOptTruthy e.ip && strOptTruthy (finalIp resolved_ip target_ip) &&
            decide (e.ip ≠ finalIp resolved_ip target_ip)) = true
       then 1 else 0) := by
  simp only [finish_check, he, Option.map_some, Option.some_bind,
    strOptTruthy, hs, Bool.not_false, Bool.true_and, Option.isSome_some]
  constructor
  · by_cases hc : e.status = (if online then "Online" else "Offline") <;>
      cases online <;>
      split_ifs <;>
      simp_all [isTransitionRow, List.filter_append, ipchanged_ne_online,
        ipchanged_ne_offline]
  · split_ifs <;>
      cases online <;>
      simp_all [isTransitionRow, List.filter_append, ipchanged_ne_online,
        ipchanged_ne_offline]

/-- A previously stored status-cache entry for the witness. -/
def prevEntry : StatusEntry :=
  { name := "db1", ip := some "10.0.0.5", status := "Online"
    latency_ms := none, reason := none, method := some "HOSTNAME"
    ip_changed := false }

/-- A status cache holding `prevEntry` under `"db1"`. -/
def prevCache : String → Option StatusEntry :=
  fun h => if h = "db1" then some prevEntry else none

/-- Witness for `history_rows_on_transition` at a concrete input (a
transition Online → Offline together with an IP change). -/
theorem history_rows_on_transition_witness :
    prevCache "db1" = some prevEntry ∧ prevEntry.status.isEmpty = false ∧
    (((finish_check prevCache emptyDnsCache "db1" (some "10.0.0.9") false none
        none (some "10.0.0.9") (some "HOSTNAME") []).history.filter
          isTransitionRow).length =
      (if prevEntry.status = (if false then "Online" else "Offline")
       then 0 else 1) ∧
    ((finish_check prevCache emptyDnsCache "db1" (some "10.0.0.9") false none
        none (some "10.0.0.9") (some "HOSTNAME") []).history.filter
          (fun r => !isTransitionRow r)).length =
      (if (strOptTruthy prevEntry.ip &&
            strOptTruthy (finalIp (some "10.0.0.9") (some "10.0.0.9")) &&
            decide (prevEntry.ip ≠ finalIp (some "10.0.0.9") (some "10.0.0.9")))
            = true
       then 1 else 0)) :=
  ⟨rfl, rfl, history_rows_on_transition prevCache emptyDnsCache "db1"
    (some "10.0.0.9") false none none (some "10.0.0.9") (some "HOSTNAME") []
    prevEntry rfl rfl⟩

/-- Every probe of the shared-target probe block aims at that target. -/
lemma probe_block_targets (P : AppProbers) (a : String) :
    ∀ c ∈ (probe_block P a a).2.2, c.target = a := by
  by_cases h : (P.ping_icmp_target a).1 <;>
    · intro c hc
      simp only [probe_block, h, if_true, Bool.false_eq_true, if_false,
        List.mem_singleton, List.mem_cons, List.mem_map] at hc
      first
      | (subst hc; rfl)
      | (rcases hc with h2 | ⟨p, _, h2⟩ <;> subst h2 <;> rfl)

/-- The probe block always performs at least the ICMP probe. -/
lemma probe_block_ne_nil (P : AppProbers) (a b : String) :
    (probe_block P a b).2.2 ≠ [] := by
  by_cases h : (P.ping_icmp_target a).1 <;> simp [probe_block, h]

/-- Claim C6: on DNS-resolution failure, `checar_um_host` probes the
configured fallback IP exclusively and records
`reason = DNS_FAIL_FALLBACK`; with no fallback it performs no probing at
all and reports `Offline` with `reason = DNS_FAIL_NO_BACKUP`. -/
theorem dns_failure_fallback_policy (P : AppProbers)
    (sc : String → Option StatusEntry) (dc : DnsCache) (now : Nat)
    (host : AppHostIn) (hn : host.name.isEmpty = false)
    (hdns : strOptTruthy (resolve_hostname P.lookup dc host.name now).ip =
      false) :
    (strOptTruthy host.ip = true →
      reasonOf (checar_um_host P sc dc now host) = some "DNS_FAIL_FALLBACK" ∧
      (checar_um_host P sc dc now host).probes ≠ [] ∧
      ∀ c ∈ (checar_um_host P sc dc now host).probes,
        c.target = host.ip.getD "") ∧
    (strOptTruthy host.ip = false →
      reasonOf (checar_um_host P sc dc now host) = some "DNS_FAIL_NO_BACKUP" ∧
      newStatusOf (checar_um_host P sc dc now host) = "Offline" ∧
      (checar_um_host P sc dc now host).probes = []) := by
  constructor
  · intro hf
    simp only [checar_um_host, hn, Bool.false_eq_true, if_false, hdns, hf,
      if_true]
    exact ⟨rfl, probe_block_ne_nil P (host.ip.getD "") (host.ip.getD ""),
      probe_block_targets P (host.ip.getD "")⟩
  · intro hf
    simp only [checar_um_host, hn, Bool.false_eq_true, if_false, hdns, hf]
    exact ⟨rfl, rfl, rfl⟩

/-- App-side probers that always fail, with a failing DNS lookup. -/
def PA : AppProbers :=
  { ping_icmp_target := fun _ => (false, none)
    tcp_ping := fun _ _ => false
    lookup := lookupFail }

/-- The CSV machine `db1` with fallback IP hint `192.0.2.9`. -/
def hostDb1 : AppHostIn := { name := "db1", ip := some "192.0.2.9" }

/-- Witness for `dns_failure_fallback_policy` at a concrete input. -/
theorem dns_failure_fallback_policy_witness :
    hostDb1.name.isEmpty = false ∧
    strOptTruthy (resolve_hostname PA.lookup emptyDnsCache hostDb1.name 0).ip =
      false ∧
    ((strOptTruthy hostDb1.ip = true →
      reasonOf (checar_um_host PA prevCache emptyDnsCache 0 hostDb1) =
        some "DNS_FAIL_FALLBACK" ∧
      (checar_um_host PA prevCache emptyDnsCache 0 hostDb1).probes ≠ [] ∧
      ∀ c ∈ (checar_um_host PA prevCache emptyDnsCache 0 hostDb1).probes,
        c.target = hostDb1.ip.getD "") ∧
    (strOptTruthy hostDb1.ip = false →
      reasonOf (checar_um_host PA prevCache emptyDnsCache 0 hostDb1) =
        some "DNS_FAIL_NO_BACKUP" ∧
      newStatusOf (checar_um_host PA prevCache emptyDnsCache 0 hostDb1) =
        "Offline" ∧
      (checar_um_host PA prevCache emptyDnsCache 0 hostDb1).probes = [])) :=
  ⟨rfl, rfl, dns_failure_fallback_policy PA prevCache emptyDnsCache 0 hostDb1
    rfl rfl⟩

/-- Claim C9 (amended): the `app.py` TCP fallback loop attempts the
configured ports in their fixed order and stops at the first port that
connects, while the `monitoring.py` comprehensive check probes every
configured port even after a success (its result list always has one
entry per configured port). -/
theorem tcp_scan_order_and_exit (tcp : String → Nat → Bool) (ip : String)
    (ports : List Nat) (P : Probers) (target : String) (timeout : Nat)
    (acc : List TcpPortResult) (any : Bool) (best : Option ℚ) :
    (tcp_fallback_scan tcp ip ports).2 =
      ports.takeWhile (fun p => !tcp ip p) ++
        (ports.dropWhile (fun p => !tcp ip p)).take 1 ∧
    (tcp_fallback_scan tcp ip ports).1 = ports.any (tcp ip) ∧
    (tcp_port_loop P target timeout ports acc any best).1.length =
      acc.length + ports.length := by
  refine ⟨?_, ?_, ?_⟩
  · induction ports with
    | nil => rfl
    | cons p ps ih =>
      by_cases h : tcp ip p <;> simp [tcp_fallback_scan, h, ih]
  · induction ports with
    | nil => rfl
    | cons p ps ih =>
      by_cases h : tcp ip p <;> simp [tcp_fallback_scan, h, ih]
  · simp [tcp_port_loop_fst]

/-- A host of the comprehensive checker with two configured TCP ports. -/
def hostTcp : MonHost :=
  { hostname := "srv3", fallback_ip := none, check_types := some "tcp"
    tcp_ports := some "80,443", timeout := 5, in_maintenance := false
    maintenance_until := none }

/-- Counterexample to claim C9 as frozen: with ports `80,443` both open,
`check_host_comprehensive` still probes port `443` after port `80` has
already accepted a connection — the per-port loop has no early exit. -/
theorem tcp_no_early_exit_counterexample :
    (check_host_comprehensive P1 0 hostTcp).result.tcp =
      some [⟨80, true, some 1⟩, ⟨443, true, some 1⟩] ∧
    (check_host_comprehensive P1 0 hostTcp).probeLog =
      [ProbeCall.dnsLookup "srv3", ProbeCall.tcp "10.0.0.5" 80,
       ProbeCall.tcp "10.0.0.5" 443] := by
  refine ⟨?_, ?_⟩ <;> decide

/-- Claim C8 (amended): for a hostname that exists in the host inventory,
an enabled rule with none of the three targeting columns set matches. -/
theorem no_targeting_universal_match (O : PyOracles)
    (hosts : String → Option AlertHost) (rule : AlertRule) (hostname : String)
    (h : AlertHost) (hh : hosts hostname = some h)
    (h1 : strOptTruthy rule.target_hosts = false)
    (h2 : strOptTruthy rule.target_tags = false)
    (h3 : strOptTruthy rule.target_groups = false) :
    matches_target O hosts rule hostname = true := by
  simp [matches_target, hh, h1, h2, h3]

/-- Oracles under which every `json.loads` raises and every `float()`
raises `ValueError`. -/
def O0 : PyOracles := { jsonStrList := fun _ => none, pyFloat := fun _ => none }

/-- An enabled `status equals "Offline"` rule with no targeting filters. -/
def ruleNoTargets : AlertRule :=
  { id := 1, enabled := true, condition_type := "status"
    condition_operator := "equals", condition_value := "Offline"
    target_hosts := none, target_tags := none, target_groups := none }

/-- Counterexample to claim C8 as frozen: for a hostname with no `Host`
row, `_matches_target` returns no-match even though the rule has no
targeting filters — the universal match only covers inventoried hosts. -/
theorem unknown_host_never_matches :
    matches_target O0 (fun _ => none) ruleNoTargets "web1" = false ∧
    ruleNoTargets.enabled = true ∧
    ruleNoTargets.target_hosts = none ∧
    ruleNoTargets.target_tags = none ∧
    ruleNoTargets.target_groups = none :=
  ⟨rfl, rfl, rfl, rfl, rfl⟩

/-- A host inventory containing exactly `web1`, with no tags or group. -/
def hostsW : String → Option AlertHost :=
  fun h => if h = "web1" then some { tags := none, group_name := none } else none

/-- Witness for `no_targeting_universal_match` at a concrete input. -/
theorem no_targeting_universal_match_witness :
    hostsW "web1" = some { tags := none, group_name := none } ∧
    strOptTruthy ruleNoTargets.target_hosts = false ∧
    strOptTruthy ruleNoTargets.target_tags = false ∧
    strOptTruthy ruleNoTargets.target_groups = false ∧
    matches_target O0 hostsW ruleNoTargets "web1" = true :=
  ⟨rfl, rfl, rfl, rfl, no_targeting_universal_match O0 hostsW ruleNoTargets
    "web1" { tags := none, group_name := none } rfl rfl rfl rfl⟩

/-- When the full condition predicate fails with the current latency, it
also fails re-evaluated with no latency (the status branch ignores the
latency and the latency branch requires one). -/
lemma should_trigger_none_of_false (O : PyOracles)
    (hosts : String → Option AlertHost) (rule : AlertRule) (hostname : String)
    (status : HostStatus) (latency : Option ℚ)
    (h : should_trigger_alert O hosts rule hostname status latency = false) :
    should_trigger_alert O hosts rule hostname status none = false := by
  by_cases hm : matches_target O hosts rule hostname
  · by_cases hs : rule.condition_type == "status"
    · unfold should_trigger_alert at h ⊢
      simpa [hm, hs] using h
    · unfold should_trigger_alert
      simp [hm, hs]
  · unfold should_trigger_alert
    simp [hm]

/-- After resolving every matching active instance, none remain active. -/
lemma countActive_after_resolve (db : List AlertInstance) (rid : Nat)
    (hostname : String) (now : Nat) :
    countActiveFor
      (db.map (fun a =>
        if isActiveFor rid hostname a then
          { a with status := AlertStatus.resolved, resolved_at := some now }
        else a)) rid hostname = 0 := by
  simp only [countActiveFor]
  induction db with
  | nil => rfl
  | cons a t ih =>
    rw [List.map_cons, List.filter_cons]
    by_cases h : isActiveFor rid hostname a = true
    · rw [if_pos h]
      have hh : isActiveFor rid hostname
          { a with status := AlertStatus.resolved, resolved_at := some now } =
          false := by
        simp [isActiveFor]
      rw [hh]
      simpa using ih
    · rw [if_neg h]
      rw [Bool.not_eq_true] at h
      rw [h]
      simpa using ih

/-- Claim C7: when an `Active` instance exists for `(rule, hostname)` and
the rule condition no longer holds for the latest result, one evaluation
pass resolves exactly that instance, stamps `resolved_at`, and dispatches
exactly one "resolved" notification. -/
theorem alert_resolution (O : PyOracles) (hosts : String → Option AlertHost)
    (rule : AlertRule) (db : List AlertInstance) (hostname : String)
    (status : HostStatus) (latency : Option ℚ) (now : Nat)
    (hen : rule.enabled = true)
    (hno : should_trigger_alert O hosts rule hostname status latency = false)
    (hcount : countActiveFor db rule.id hostname = 1) :
    (evaluate_alert_rules O hosts [rule] db hostname status latency now).1 =
      db.map (fun a =>
        if isActiveFor rule.id hostname a then
          { a with status := AlertStatus.resolved, resolved_at := some now }
        else a) ∧
    (evaluate_alert_rules O hosts [rule] db hostname status latency now).2 =
      [⟨NotifKind.resolved, rule.id, hostname⟩] ∧
    countActiveFor
      (evaluate_alert_rules O hosts [rule] db hostname status latency now).1
      rule.id hostname = 0 := by
  have hnone := should_trigger_none_of_false O hosts rule hostname status
    latency hno
  have hev : evaluate_alert_rules O hosts [rule] db hostname status latency
      now = ((check_alert_resolution O hosts db db rule hostname status
          now).1.1,
        (check_alert_resolution O hosts db db rule hostname status now).2) := by
    simp [evaluate_alert_rules, eval_rules_loop, hen, hno]
  have hsimp : check_alert_resolution O hosts db db rule hostname status now =
      ((db.map (fun a =>
          if isActiveFor rule.id hostname a then
            { a with status := AlertStatus.resolved, resolved_at := some now }
          else a),
        db.map (fun a =>
          if isActiveFor rule.id hostname a then
            { a with status := AlertStatus.resolved, resolved_at := some now }
          else a)),
       (db.filter (isActiveFor rule.id hostname)).map
         (fun a => ⟨NotifKind.resolved, rule.id, a.hostname⟩)) := by
    simp only [check_alert_resolution, hnone, Bool.not_false, Bool.and_true]
  obtain ⟨a1, ha1⟩ := List.length_eq_one.mp hcount
  have ha1p : isActiveFor rule.id hostname a1 = true := by
    have : a1 ∈ db.filter (isActiveFor rule.id hostname) := by
      rw [ha1]; exact List.mem_singleton_self a1
    exact (List.mem_filter.mp this).2
  have ha1host : a1.hostname = hostname := by
    have := of_decide_eq_true ha1p
    exact this.2.1
  refine ⟨?_, ?_, ?_⟩
  · rw [hev, hsimp]
  · rw [hev, hsimp]
    simp only [ha1, List.map_cons, List.map_nil, ha1host]
  · rw [hev, hsimp]
    exact countActive_after_resolve db rule.id hostname now

/-- Claim C3 (the code at the failing input): feeding two consecutive
Offline results for `web1` under the enabled `status equals "Offline"`
rule leaves exactly one `Active` instance and dispatches exactly one
"triggered" notification — but the persisted `notification_count` stays
at `1`: the re-trigger branch of `_create_alert_instance` increments the
count only in the session (that branch has no `db.commit()`), and
`evaluate_alert_rules` exits its `SessionLocal` block without
committing, so the close rolls the increment back.  The session working
state inside the second call does hold the intended count of `2` (last
conjunct), which the close then discards. -/
theorem retrigger_increment_not_persisted :
    (evaluate_alert_rules O0 hostsW [ruleNoTargets]
        (evaluate_alert_rules O0 hostsW [ruleNoTargets] [] "web1"
          HostStatus.offline none 4).1
        "web1" HostStatus.offline none 5).1 =
      [{ rule_id := 1, hostname := "web1", status := AlertStatus.active
         trigger_value := "Offline", notification_count := 1
         triggered_at := 4, resolved_at := none }] ∧
    countActiveFor
      (evaluate_alert_rules O0 hostsW [ruleNoTargets]
        (evaluate_alert_rules O0 hostsW [ruleNoTargets] [] "web1"
          HostStatus.offline none 4).1
        "web1" HostStatus.offline none 5).1 1 "web1" = 1 ∧
    (evaluate_alert_rules O0 hostsW [ruleNoTargets] [] "web1"
        HostStatus.offline none 4).2 =
      [⟨NotifKind.triggered, 1, "web1"⟩] ∧
    (evaluate_alert_rules O0 hostsW [ruleNoTargets]
        (evaluate_alert_rules O0 hostsW [ruleNoTargets] [] "web1"
          HostStatus.offline none 4).1
        "web1" HostStatus.offline none 5).2 = [] ∧
    ((create_alert_instance
        (evaluate_alert_rules O0 hostsW [ruleNoTargets] [] "web1"
          HostStatus.offline none 4).1
        (evaluate_alert_rules O0 hostsW [ruleNoTargets] [] "web1"
          HostStatus.offline none 4).1
        ruleNoTargets "web1" HostStatus.offline none 5).1.2.map
      (fun a => a.notification_count) = [2]) := by
  refine ⟨?_, ?_, ?_, ?_, ?_⟩ <;> rfl

/-- One active alert instance for `ruleNoTargets` on host `web1`. -/
def activeInst : AlertInstance :=
  { rule_id := 1, hostname := "web1", status := AlertStatus.active
    trigger_value := "Offline", notification_count := 1, triggered_at := 3
    resolved_at := none }

/-- Witness for `alert_resolution` at a concrete input (host back
`Online`, so the `status equals "Offline"` condition no longer holds). -/
theorem alert_resolution_witness :
    ruleNoTargets.enabled = true ∧
    should_trigger_alert O0 hostsW ruleNoTargets "web1" HostStatus.online
      none = false ∧
    countActiveFor [activeInst] ruleNoTargets.id "web1" = 1 ∧
    ((evaluate_alert_rules O0 hostsW [ruleNoTargets] [activeInst] "web1"
        HostStatus.online none 9).1 =
      [activeInst].map (fun a =>
        if isActiveFor ruleNoTargets.id "web1" a then
          { a with status := AlertStatus.resolved, resolved_at := some 9 }
        else a) ∧
    (evaluate_alert_rules O0 hostsW [ruleNoTargets] [activeInst] "web1"
        HostStatus.online none 9).2 =
      [⟨NotifKind.resolved, ruleNoTargets.id, "web1"⟩] ∧
    countActiveFor
      (evaluate_alert_rules O0 hostsW [ruleNoTargets] [activeInst] "web1"
        HostStatus.online none 9).1
      ruleNoTargets.id "web1" = 0) :=
  ⟨rfl, by decide, by decide, alert_resolution O0 hostsW ruleNoTargets
    [activeInst] "web1" HostStatus.online none 9 rfl (by decide) (by decide)⟩

/-- Folding `update_stats` over calls in which a response time is reported
exactly on the successful ones never fails, counts the successes, and
keeps `avg_response_time *successful_checks` equal to the sum of the
reported response times. -/
lemma runUpdates_spec (calls : List (Bool × Option ℚ))
    (h2 : ∀ c ∈ calls, c.2.isSome = c.1) (s0 : MonStats) :
    ∃ s1, runUpdates s0 calls = some s1 ∧
      s1.successful_checks =
        s0.successful_checks + (calls.filter (fun c => c.1)).length ∧
      s1.avg_response_time * (s1.successful_checks : ℚ) =
        s0.avg_response_time * (s0.successful_checks : ℚ) +
          (calls.filterMap (fun c => c.2)).sum ∧
      ((calls.filter (fun c => c.1)).length = 0 →
        s1.avg_response_time = s0.avg_response_time) := by
  induction calls generalizing s0 with
  | nil => exact ⟨s0, rfl, by simp, by simp, fun _ => rfl⟩
  | cons c cs ih =>
    obtain ⟨b, rt⟩ := c
    have h2cs : ∀ c ∈ cs, c.2.isSome = c.1 :=
      fun c hc => h2 c (List.mem_cons_of_mem _ hc)
    cases rt with
    | none =>
      have hb : b = false := by simpa using (h2 (b, none) (by simp)).symm
      subst hb
      obtain ⟨s1, hrun, hsucc, havg, hconst⟩ := ih h2cs
        { s0 with total_checks := s0.total_checks + 1
                  failed_checks := s0.failed_checks + 1 }
      refine ⟨s1, ?_, by simpa using hsucc, by simpa using havg, ?_⟩
      · simpa [runUpdates, update_stats] using hrun
      · intro h
        rw [List.filter_cons_of_neg (by simp)] at h
        simpa using hconst h
    | some q =>
      have hb : b = true := by simpa using (h2 (b, some q) (by simp)).symm
      subst hb
      have hcast : ((s0.successful_checks + 1 : Nat) : ℚ) ≠ 0 := by
        exact_mod_cast Nat.succ_ne_zero s0.successful_checks
      obtain ⟨s1, hrun, hsucc, havg, hconst⟩ := ih h2cs
        { s0 with total_checks := s0.total_checks + 1
                  successful_checks := s0.successful_checks + 1
                  avg_response_time :=
                    (s0.avg_response_time *
                        (((s0.successful_checks + 1 : Nat) : ℚ) - 1) + q) /
                      ((s0.successful_checks + 1 : Nat) : ℚ) }
      have hmul : (s0.avg_response_time *
          (((s0.successful_checks + 1 : Nat) : ℚ) - 1) + q) /
            ((s0.successful_checks + 1 : Nat) : ℚ) *
            ((s0.successful_checks + 1 : Nat) : ℚ) =
          s0.avg_response_time * (s0.successful_checks : ℚ) + q := by
        rw [div_mul_cancel₀ _ hcast]
        push_cast
        ring
      refine ⟨s1, ?_, ?_, ?_, ?_⟩
      · simpa [runUpdates, update_stats] using hrun
      · rw [hsucc]
        have hlen : (List.filter (fun c => c.1) ((true, some q) :: cs)).length
            = (List.filter (fun c => c.1) cs).length + 1 := by simp
        rw [hlen]
        dsimp only
        omega
      · rw [havg]
        dsimp only
        rw [hmul]
        have hsum : (List.filterMap (fun c => c.2)
            ((true, some q) :: cs)).sum =
            q + (List.filterMap (fun c => c.2) cs).sum := by simp
        rw [hsum]
        ring
      · intro h
        simp at h

/-- Claim C10: a single `update_stats` call carrying a response time
completes without the division error whenever the call itself is
successful or some successful check has already been counted; and over
any call sequence in which exactly the successful calls report a response
time, starting from the initial statistics, every call completes and
`avg_response_time` is the mean of the reported times over the successful
checks. -/
theorem update_stats_running_mean (s : MonStats) (b : Bool) (rt : ℚ)
    (calls : List (Bool × Option ℚ))
    (h1 : b = true ∨ 1 ≤ s.successful_checks)
    (h2 : ∀ c ∈ calls, c.2.isSome = c.1) :
    (update_stats s b (some rt)).isSome = true ∧
    (runUpdates initStats calls).isSome = true ∧
    ((runUpdates initStats calls).getD initStats).successful_checks =
      (calls.filter (fun c => c.1)).length ∧
    ((runUpdates initStats calls).getD initStats).avg_response_time =
      (calls.filterMap (fun c => c.2)).sum /
        (((calls.filter (fun c => c.1)).length : Nat) : ℚ) := by
  obtain ⟨s1, hrun, hsucc, havg, hconst⟩ := runUpdates_spec calls h2 initStats
  have hs0 : initStats.successful_checks = 0 := rfl
  have ha0 : initStats.avg_response_time = 0 := rfl
  rw [hs0] at hsucc
  rw [hs0, ha0] at havg
  simp only [Nat.zero_add] at hsucc
  simp only [Nat.cast_zero, mul_zero, zero_add] at havg
  refine ⟨?_, ?_, ?_, ?_⟩
  · cases b with
    | true => simp [update_stats]
    | false =>
      have hge : 1 ≤ s.successful_checks := by
        rcases h1 with h | h
        · exact absurd h (by simp)
        · exact h
      have hne : ¬s.successful_checks = 0 := by omega
      simp [update_stats, hne]
  · simp [hrun]
  · simp [hrun, hsucc]
  · rw [hrun]
    simp only [Option.getD_some]
    by_cases hz : (calls.filter (fun c => c.1)).length = 0
    · have hnil : calls.filterMap (fun c => c.2) = [] := by
        rw [List.filterMap_eq_nil_iff]
        intro c hc
        have hfalse : c.1 = false := by
          by_contra hb
          rw [Bool.not_eq_false] at hb
          have : c ∈ calls.filter (fun c => c.1) := List.mem_filter.mpr ⟨hc, hb⟩
          rw [List.length_eq_zero.mp hz] at this
          simp at this
        have := h2 c hc
        rw [hfalse] at this
        exact Option.not_isSome_iff_eq_none.mp (by simp [this])
      rw [hconst hz, ha0, hz, hnil]
      simp
    · have hcast : (((calls.filter (fun c => c.1)).length : Nat) : ℚ) ≠ 0 := by
        exact_mod_cast hz
      rw [eq_div_iff hcast]
      rw [← hsucc] at hcast ⊢
      exact havg

/-- Witness for `update_stats_running_mean` at a concrete input. -/
theorem update_stats_running_mean_witness :
    ((true : Bool) = true ∨ 1 ≤ initStats.successful_checks) ∧
    (∀ c ∈ [((true : Bool), some (4 : ℚ)), (false, none), (true, some 8)],
      c.2.isSome = c.1) ∧
    ((update_stats initStats true (some 5)).isSome = true ∧
    (runUpdates initStats
      [(true, some 4), (false, none), (true, some 8)]).isSome = true ∧
    ((runUpdates initStats
        [(true, some 4), (false, none), (true, some 8)]).getD
          initStats).successful_checks =
      ([((true : Bool), some (4 : ℚ)), (false, none),
        (true, some 8)].filter (fun c => c.1)).length ∧
    ((runUpdates initStats
        [(true, some 4), (false, none), (true, some 8)]).getD
          initStats).avg_response_time =
      ([((true : Bool), some (4 : ℚ)), (false, none),
        (true, some 8)].filterMap (fun c => c.2)).sum /
        ((([((true : Bool), some (4 : ℚ)), (false, none),
          (true, some 8)].filter (fun c => c.1)).length : Nat) : ℚ)) :=
  ⟨Or.inl rfl, by decide, update_stats_running_mean initStats true 5
    [(true, some 4), (false, none), (true, some 8)] (Or.inl rfl) (by decide)⟩

/-- A concrete check result with `Offline` status, as last saved. -/
def exResultOffline : Monitoring.CheckResult :=
  { hostname := "db1", overall_status := .offline, dns_success := true
    dns_error := none, dns_fallback_used := false
    primary_ip := some "10.0.0.7", response_time := none
    error_message := some "All checks failed"
    icmp := none, tcp := none, http := none, https := none, ssl_ok := none }

/-- Counterexample to claim C2 as frozen: `save_check_result` of
`monitoring.py` never consults the previously stored status — saving the
same `Offline` result twice appends one history row each time, where the
claim requires no row for the unchanged second save. -/
theorem save_check_result_always_appends :
    ((Monitoring.save_check_result none exResultOffline).2.length = 1) ∧
    ((Monitoring.save_check_result
        (Monitoring.save_check_result none exResultOffline).1
        exResultOffline).2.length = 1) ∧
    ((Monitoring.save_check_result
        (Monitoring.save_check_result none exResultOffline).1
        exResultOffline).2.map (fun r => r.status) =
      [HostStatus.offline]) := by
  refine ⟨?_, ?_, ?_⟩ <;> rfl

/-- Witness for `online_iff_probing_success` at a concrete input. -/
theorem online_iff_probing_success_witness :
    maint_short_circuit 0 hostPlain = false ∧
    (((check_host_comprehensive P1 0 hostPlain).result.overall_status =
        HostStatus.online ↔
      anyRecordedSuccess (check_host_comprehensive P1 0 hostPlain).result = true) ∧
    ((check_host_comprehensive P1 0 hostPlain).result.overall_status =
        HostStatus.online ∨
      (check_host_comprehensive P1 0 hostPlain).result.overall_status =
        HostStatus.offline)) :=
  ⟨rfl, online_iff_probing_success P1 0 hostPlain rfl⟩

